import Mathlib

/-!
Verification of the ripple filter `createRippleEffect` from
`src/src/App.tsx` of gothicripplecornerconverter.

The embedding models JavaScript numbers as real numbers, pixel channels as
naturals, and the flat RGBA byte array as a coordinate-indexed pixel grid:
the canvas `ImageData.data` array stores pixel `(x, y)` at flat offset
`(y * width + x) * 4`, so a grid indexed by `(x, y)` carries the same
information; the bounds guard on the flat index is kept explicitly.
-/

/-- One RGBA pixel: four channels, each a 0–255 integer in the canvas API. -/
structure Pixel where
  r : ℕ
  g : ℕ
  b : ℕ
  a : ℕ
deriving DecidableEq

/-- The pixel value every cell of the fresh output buffer holds before the main
loop writes to it: `ctx.createImageData` zero-initializes all four channels and
the clearing loop (lines 33–36) re-asserts alpha = 0, so an unwritten cell is
transparent black. -/
def clearedPixel : Pixel := ⟨0, 0, 0, 0⟩

/-- An image buffer as the filter sees it: dimensions plus a pixel grid
(the canvas `ImageData`). -/
structure ImageData where
  width : ℕ
  height : ℕ
  data : ℕ → ℕ → Pixel

/-- Lines 41–45: `minDistFromEdge = Math.min(x, width - x, y, height - y)`
with `distFromLeft = x`, `distFromRight = width - x`, `distFromTop = y`,
`distFromBottom = height - y`; the variadic `Math.min` folds from the left.
Inside the loops `x < width` and `y < height`, so the natural subtractions
agree with the JavaScript ones. -/
def minDistFromEdge (x y w h : ℕ) : ℕ :=
  min (min (min x (w - x)) y) (h - y)

/-- Lines 52–73: the `switch (pattern)` selecting the wave formula, with the
`default` fallback `sin(x·f) + cos(y·f)`. All trig is in radians
(`Math.sin` / `Math.cos`); `Math.abs` is the absolute value. -/
noncomputable def waveValue (pattern : String) (x y : ℕ) (f : ℝ) : ℝ :=
  if pattern = "gothic" then
    Real.sin (x * f) * Real.cos (y * f * 1.3) +
      Real.sin (y * f * 0.7) * Real.cos (x * f * 0.8)
  else if pattern = "organic" then
    Real.sin (x * f * 1.2) + Real.cos (y * f * 0.9) +
      Real.sin ((x + y) * f * 0.5)
  else if pattern = "flame" then
    Real.sin (x * f) * Real.sin (y * f * 2) +
      Real.cos (x * f * 0.3) * Real.sin (y * f * 1.5)
  else if pattern = "thorns" then
    |Real.sin (x * f * 3)| * Real.cos (y * f) +
      |Real.cos (y * f * 2)| * Real.sin (x * f)
  else
    Real.sin (x * f) + Real.cos (y * f)

/-- Line 75: `rippleOffset = waveValue * (intensity - minDistFromEdge) * 0.3`
(the value assigned inside the border-zone branch). -/
noncomputable def rippleOffset (w h : ℕ) (intensity f : ℝ) (pattern : String)
    (x y : ℕ) : ℝ :=
  waveValue pattern x y f * (intensity - minDistFromEdge x y w h) * 0.3

/-- Line 78: `cutoffThreshold = minDistFromEdge + rippleOffset`. -/
noncomputable def cutoffThreshold (w h : ℕ) (intensity f : ℝ) (pattern : String)
    (x y : ℕ) : ℝ :=
  minDistFromEdge x y w h + rippleOffset w h intensity f pattern x y

/-- Lines 47–82: `shouldInclude` starts `true` and is set to `false` exactly
when `minDistFromEdge < intensity * 2` (border zone, line 50) and
`cutoffThreshold < intensity * 0.8` (line 79). -/
def shouldInclude (w h : ℕ) (intensity f : ℝ) (pattern : String)
    (x y : ℕ) : Prop :=
  (minDistFromEdge x y w h : ℝ) < intensity * 2 →
    ¬ cutoffThreshold w h intensity f pattern x y < intensity * 0.8

open Classical in
/-- Lines 84–94: the write-back for loop position `(x, y)`: a kept pixel is
copied channel-wise from `data` to `newData` at the same flat index, guarded by
`sourceIndex >= 0 && sourceIndex < data.length` (the lower bound always holds
over ℕ; `data.length = width * height * 4`); a discarded pixel, or a kept pixel
failing the guard, leaves the cleared value in place. -/
noncomputable def processPixel (src : ℕ → ℕ → Pixel) (w h : ℕ)
    (intensity f : ℝ) (pattern : String) (x y : ℕ) : Pixel :=
  if shouldInclude w h intensity f pattern x y then
    if (y * w + x) * 4 < w * h * 4 then src x y else clearedPixel
  else clearedPixel

/-- Lines 28–98: the whole of `createRippleEffect`: read the `width × height`
source, allocate a cleared output of the same dimensions, run the nested loops
(`0 ≤ y < height`, `0 ≤ x < width`) writing each visited position, and return
the new buffer; positions never visited by the loops keep the cleared value. -/
noncomputable def createRippleEffect (src : ℕ → ℕ → Pixel) (w h : ℕ)
    (intensity f : ℝ) (pattern : String) : ImageData :=
  ⟨w, h, fun x y =>
    if x < w ∧ y < h then processPixel src w h intensity f pattern x y
    else clearedPixel⟩

/-- Spec §4.1 table, Gothic row, written from the spec's words:
`sin(x·f)·cos(y·f·1.3) + sin(y·f·0.7)·cos(x·f·0.8)`. -/
noncomputable def specGothicWave (x y : ℕ) (f : ℝ) : ℝ :=
  Real.sin (x * f) * Real.cos (y * f * 1.3) +
    Real.sin (y * f * 0.7) * Real.cos (x * f * 0.8)

/-- Spec §4.1 table, Organic row, written from the spec's words:
`sin(x·f·1.2) + cos(y·f·0.9) + sin((x+y)·f·0.5)`. -/
noncomputable def specOrganicWave (x y : ℕ) (f : ℝ) : ℝ :=
  Real.sin (x * f * 1.2) + Real.cos (y * f * 0.9) +
    Real.sin ((x + y) * f * 0.5)

/-- Spec §4.1 table, Flame row, written from the spec's words:
`sin(x·f)·sin(y·f·2) + cos(x·f·0.3)·sin(y·f·1.5)`. -/
noncomputable def specFlameWave (x y : ℕ) (f : ℝ) : ℝ :=
  Real.sin (x * f) * Real.sin (y * f * 2) +
    Real.cos (x * f * 0.3) * Real.sin (y * f * 1.5)

/-- Spec §4.1 table, Thorns row, written from the spec's words:
`abs(sin(x·f·3))·cos(y·f) + abs(cos(y·f·2))·sin(x·f)`. -/
noncomputable def specThornsWave (x y : ℕ) (f : ℝ) : ℝ :=
  |Real.sin (x * f * 3)| * Real.cos (y * f) +
    |Real.cos (y * f * 2)| * Real.sin (x * f)

/-- A concrete sample source image used by the witnesses: distinct channel
values at every coordinate, fully opaque. -/
def srcSample : ℕ → ℕ → Pixel := fun x y => ⟨x + 7, y + 11, 9, 255⟩

/-- The failure mode of the canvas API calls the filter opens with:
`ctx.getImageData(0, 0, width, height)` (line 28) and
`ctx.createImageData(width, height)` (line 30) throw an `IndexSizeError`
DOMException when either dimension is zero. -/
inductive CanvasError where
  | indexSizeError
deriving DecidableEq

/-- `createRippleEffect` together with the canvas API boundary of its first
two statements: with a zero dimension, `getImageData` / `createImageData`
(lines 28–30) throw `IndexSizeError` before any pixel processing, so no
buffer is produced; with positive dimensions they succeed and the body runs
as `createRippleEffect`. Negative dimensions are not representable in this
natural-number model. -/
noncomputable def rippleEffectChecked (src : ℕ → ℕ → Pixel) (w h : ℕ)
    (intensity f : ℝ) (pattern : String) : Except CanvasError ImageData :=
  if w = 0 ∨ h = 0 then Except.error CanvasError.indexSizeError
  else Except.ok (createRippleEffect src w h intensity f pattern)

theorem sourceIndex_lt {x y w h : ℕ} (hx : x < w) (hy : y < h) :
    (y * w + x) * 4 < w * h * 4 := by
  have h1 : y * w + x < y * w + w := Nat.add_lt_add_left hx _
  have h2 : y * w + w ≤ h * w := by
    calc y * w + w = (y + 1) * w := by ring
    _ ≤ h * w := Nat.mul_le_mul_right w hy
  have h3 : y * w + x < w * h := by
    have := lt_of_lt_of_le h1 h2
    calc y * w + x < h * w := this
    _ = w * h := Nat.mul_comm h w
  exact (Nat.mul_lt_mul_right (by norm_num)).mpr h3

theorem data_eq_of_include (src : ℕ → ℕ → Pixel) {w h : ℕ} (intensity f : ℝ)
    (pattern : String) {x y : ℕ} (hx : x < w) (hy : y < h)
    (hs : shouldInclude w h intensity f pattern x y) :
    (createRippleEffect src w h intensity f pattern).data x y = src x y := by
  show (if x < w ∧ y < h then processPixel src w h intensity f pattern x y
    else clearedPixel) = _
  rw [if_pos ⟨hx, hy⟩]
  unfold processPixel
  rw [if_pos hs, if_pos (sourceIndex_lt hx hy)]

theorem data_eq_of_not_include (src : ℕ → ℕ → Pixel) {w h : ℕ} (intensity f : ℝ)
    (pattern : String) {x y : ℕ} (hx : x < w) (hy : y < h)
    (hs : ¬ shouldInclude w h intensity f pattern x y) :
    (createRippleEffect src w h intensity f pattern).data x y = clearedPixel := by
  show (if x < w ∧ y < h then processPixel src w h intensity f pattern x y
    else clearedPixel) = _
  rw [if_pos ⟨hx, hy⟩]
  unfold processPixel
  rw [if_neg hs]

/-- Claim C2: for every pixel coordinate and frequency, the wave value the code
computes for each of the four enumerated pattern tags equals the corresponding
formula of the spec's pattern table (trig in radians). -/
theorem waveValue_matches_spec_table (x y : ℕ) (f : ℝ) :
    waveValue "gothic" x y f = specGothicWave x y f ∧
    waveValue "organic" x y f = specOrganicWave x y f ∧
    waveValue "flame" x y f = specFlameWave x y f ∧
    waveValue "thorns" x y f = specThornsWave x y f := by
  refine ⟨?_, ?_, ?_, ?_⟩ <;>
    simp [waveValue, specGothicWave, specOrganicWave, specFlameWave,
      specThornsWave]

/-- Claim C4: for in-range coordinates the edge distance is
`min(x, width - x, y, height - y)` with true integer subtraction, and the
rightmost column `x = width - 1` gets right-edge distance `1`, not `0` —
the asymmetric off-by-one is exact. -/
theorem minDistFromEdge_formula {x y w h : ℕ} (hx : x < w) (hy : y < h) :
    (minDistFromEdge x y w h : ℤ) =
      min (min (min (x : ℤ) ((w : ℤ) - (x : ℤ))) (y : ℤ)) ((h : ℤ) - (y : ℤ)) ∧
    minDistFromEdge (w - 1) y w h =
      min (min (min (w - 1) 1) y) (h - y) := by
  constructor
  · unfold minDistFromEdge
    push_cast [Nat.cast_min, Int.ofNat_sub (le_of_lt hx), Int.ofNat_sub (le_of_lt hy)]
    ring_nf
  · unfold minDistFromEdge
    have hw1 : w - (w - 1) = 1 := by omega
    rw [hw1]

/-- Witness for C4 at `x = 3`, `y = 2`, `width = 4`, `height = 8` (so `x` is
the rightmost column). -/
theorem minDistFromEdge_formula_witness :
    3 < 4 ∧ 2 < 8 ∧
    ((minDistFromEdge 3 2 4 8 : ℤ) =
      min (min (min (3 : ℤ) ((4 : ℤ) - (3 : ℤ))) (2 : ℤ)) ((8 : ℤ) - (2 : ℤ)) ∧
    minDistFromEdge (4 - 1) 2 4 8 =
      min (min (min (4 - 1) 1) 2) (8 - 2)) :=
  ⟨by decide, by decide,
    @minDistFromEdge_formula 3 2 4 8 (by decide) (by decide)⟩

theorem data_eq_of_out (src : ℕ → ℕ → Pixel) (w h : ℕ) (intensity f : ℝ)
    (pattern : String) {x y : ℕ} (hr : ¬ (x < w ∧ y < h)) :
    (createRippleEffect src w h intensity f pattern).data x y = clearedPixel := by
  show (if x < w ∧ y < h then processPixel src w h intensity f pattern x y
    else clearedPixel) = _
  rw [if_neg hr]

/-- Claim C1: for a border-zone pixel (`minDistFromEdge < 2·intensity`) the
filter discards (leaves transparent black) exactly when
`minDistFromEdge + waveValue·(intensity - minDistFromEdge)·0.3 < intensity·0.8`
and otherwise copies the source pixel verbatim, alpha included; the factor
`intensity - minDistFromEdge` is negative whenever
`minDistFromEdge > intensity`. -/
theorem borderZone_discard_iff (src : ℕ → ℕ → Pixel) {w h x y : ℕ}
    (intensity f : ℝ) (pattern : String) (hx : x < w) (hy : y < h)
    (hzone : (minDistFromEdge x y w h : ℝ) < 2 * intensity) :
    (¬ shouldInclude w h intensity f pattern x y ↔
      (minDistFromEdge x y w h : ℝ) +
        waveValue pattern x y f *
          (intensity - (minDistFromEdge x y w h : ℝ)) * 0.3 <
        intensity * 0.8) ∧
    ((minDistFromEdge x y w h : ℝ) +
        waveValue pattern x y f *
          (intensity - (minDistFromEdge x y w h : ℝ)) * 0.3 <
        intensity * 0.8 →
      (createRippleEffect src w h intensity f pattern).data x y =
        clearedPixel) ∧
    (¬ (minDistFromEdge x y w h : ℝ) +
        waveValue pattern x y f *
          (intensity - (minDistFromEdge x y w h : ℝ)) * 0.3 <
        intensity * 0.8 →
      (createRippleEffect src w h intensity f pattern).data x y = src x y) ∧
    ((intensity : ℝ) < (minDistFromEdge x y w h : ℝ) →
      intensity - (minDistFromEdge x y w h : ℝ) < 0) := by
  have hzone' : (minDistFromEdge x y w h : ℝ) < intensity * 2 := by linarith
  have hcut : cutoffThreshold w h intensity f pattern x y =
      (minDistFromEdge x y w h : ℝ) +
        waveValue pattern x y f *
          (intensity - (minDistFromEdge x y w h : ℝ)) * 0.3 := rfl
  have hiff : ¬ shouldInclude w h intensity f pattern x y ↔
      (minDistFromEdge x y w h : ℝ) +
        waveValue pattern x y f *
          (intensity - (minDistFromEdge x y w h : ℝ)) * 0.3 <
        intensity * 0.8 := by
    constructor
    · intro hns
      unfold shouldInclude at hns
      push_neg at hns
      rw [← hcut]
      exact hns.2
    · intro hc hinc
      exact hinc hzone' (hcut ▸ hc)
  refine ⟨hiff, ?_, ?_, fun hlt => by linarith⟩
  · intro hc
    exact data_eq_of_not_include src intensity f pattern hx hy (hiff.mpr hc)
  · intro hc
    have hs : shouldInclude w h intensity f pattern x y := by
      by_contra hns
      exact hc (hiff.mp hns)
    exact data_eq_of_include src intensity f pattern hx hy hs

/-- Witness for C1 at the corner pixel `(0, 0)` of a 4×4 image with
`intensity = 3`, `frequency = 1`, pattern `gothic`. -/
theorem borderZone_discard_iff_witness :
    0 < 4 ∧ ((minDistFromEdge 0 0 4 4 : ℝ) < 2 * 3) ∧
    ((¬ shouldInclude 4 4 3 1 "gothic" 0 0 ↔
      (minDistFromEdge 0 0 4 4 : ℝ) +
        waveValue "gothic" 0 0 1 *
          ((3 : ℝ) - (minDistFromEdge 0 0 4 4 : ℝ)) * 0.3 <
        (3 : ℝ) * 0.8) ∧
    ((minDistFromEdge 0 0 4 4 : ℝ) +
        waveValue "gothic" 0 0 1 *
          ((3 : ℝ) - (minDistFromEdge 0 0 4 4 : ℝ)) * 0.3 <
        (3 : ℝ) * 0.8 →
      (createRippleEffect srcSample 4 4 3 1 "gothic").data 0 0 =
        clearedPixel) ∧
    (¬ (minDistFromEdge 0 0 4 4 : ℝ) +
        waveValue "gothic" 0 0 1 *
          ((3 : ℝ) - (minDistFromEdge 0 0 4 4 : ℝ)) * 0.3 <
        (3 : ℝ) * 0.8 →
      (createRippleEffect srcSample 4 4 3 1 "gothic").data 0 0 =
        srcSample 0 0) ∧
    ((3 : ℝ) < (minDistFromEdge 0 0 4 4 : ℝ) →
      (3 : ℝ) - (minDistFromEdge 0 0 4 4 : ℝ) < 0)) :=
  ⟨by decide,
    by
      have h0 : minDistFromEdge 0 0 4 4 = 0 := by decide
      rw [h0]; norm_num,
    borderZone_discard_iff srcSample 3 1 "gothic" (by decide) (by decide)
      (by
        have h0 : minDistFromEdge 0 0 4 4 = 0 := by decide
        rw [h0]; norm_num)⟩

/-- Claim C3: an interior pixel (`minDistFromEdge ≥ 2·intensity`) is always
kept unchanged, for every pattern and every frequency. -/
theorem interior_invariance (src : ℕ → ℕ → Pixel) {w h x y : ℕ}
    (intensity f : ℝ) (pattern : String) (hx : x < w) (hy : y < h)
    (hint : 2 * intensity ≤ (minDistFromEdge x y w h : ℝ)) :
    (createRippleEffect src w h intensity f pattern).data x y = src x y := by
  have hs : shouldInclude w h intensity f pattern x y := by
    intro hzone
    exact absurd hzone (not_lt.mpr (by linarith))
  exact data_eq_of_include src intensity f pattern hx hy hs

/-- Witness for C3 at the central pixel `(5, 5)` of a 10×10 image with
`intensity = 1`. -/
theorem interior_invariance_witness :
    5 < 10 ∧ (2 * (1 : ℝ) ≤ (minDistFromEdge 5 5 10 10 : ℝ)) ∧
    (createRippleEffect srcSample 10 10 1 0.02 "thorns").data 5 5 =
      srcSample 5 5 :=
  ⟨by decide,
    by
      have h5 : minDistFromEdge 5 5 10 10 = 5 := by decide
      rw [h5]; norm_num,
    interior_invariance srcSample 1 0.02 "thorns" (by decide) (by decide)
      (by
        have h5 : minDistFromEdge 5 5 10 10 = 5 := by decide
        rw [h5]; norm_num)⟩

/-- Claim C10: with `intensity ≤ 0` the border-zone branch is unreachable
(`minDistFromEdge ≥ 0 ≥ 2·intensity`), so every in-range pixel is copied and
the output is an exact copy of the source. -/
theorem nonpositive_intensity_copies (src : ℕ → ℕ → Pixel) {w h x y : ℕ}
    (intensity f : ℝ) (pattern : String) (hi : intensity ≤ 0)
    (hx : x < w) (hy : y < h) :
    (createRippleEffect src w h intensity f pattern).data x y = src x y := by
  have hs : shouldInclude w h intensity f pattern x y := by
    intro hzone
    have hnn : (0 : ℝ) ≤ (minDistFromEdge x y w h : ℝ) := Nat.cast_nonneg _
    linarith
  exact data_eq_of_include src intensity f pattern hx hy hs

/-- Witness for C10 with `intensity = 0` on a 3×3 image. -/
theorem nonpositive_intensity_copies_witness :
    ((0 : ℝ) ≤ 0) ∧ 1 < 3 ∧
    (createRippleEffect srcSample 3 3 0 0.02 "flame").data 1 2 =
      srcSample 1 2 :=
  ⟨by norm_num, by decide,
    nonpositive_intensity_copies srcSample 0 0.02 "flame" (by norm_num)
      (by decide) (by decide)⟩

/-- Claim C5: every in-range output pixel is either an exact channel-wise copy
of the source pixel at the same coordinates or the transparent black pixel
`(0, 0, 0, 0)`; in particular the output alpha is the source alpha or `0`,
never an intermediate value. -/
theorem output_copy_or_transparent (src : ℕ → ℕ → Pixel) {w h x y : ℕ}
    (intensity f : ℝ) (pattern : String) (hx : x < w) (hy : y < h) :
    ((createRippleEffect src w h intensity f pattern).data x y = src x y ∨
      (createRippleEffect src w h intensity f pattern).data x y =
        clearedPixel) ∧
    (((createRippleEffect src w h intensity f pattern).data x y).a =
        (src x y).a ∨
      ((createRippleEffect src w h intensity f pattern).data x y).a = 0) := by
  by_cases hs : shouldInclude w h intensity f pattern x y
  · have hd := data_eq_of_include src intensity f pattern hx hy hs
    exact ⟨Or.inl hd, Or.inl (by rw [hd])⟩
  · have hd := data_eq_of_not_include src intensity f pattern hx hy hs
    exact ⟨Or.inr hd, Or.inr (by rw [hd]; rfl)⟩

/-- Witness for C5 at pixel `(1, 0)` of a 5×6 image. -/
theorem output_copy_or_transparent_witness :
    1 < 5 ∧ 0 < 6 ∧
    (((createRippleEffect srcSample 5 6 2 0.5 "organic").data 1 0 =
        srcSample 1 0 ∨
      (createRippleEffect srcSample 5 6 2 0.5 "organic").data 1 0 =
        clearedPixel) ∧
    (((createRippleEffect srcSample 5 6 2 0.5 "organic").data 1 0).a =
        (srcSample 1 0).a ∨
      ((createRippleEffect srcSample 5 6 2 0.5 "organic").data 1 0).a = 0)) :=
  ⟨by decide, by decide,
    output_copy_or_transparent srcSample 2 0.5 "organic" (by decide)
      (by decide)⟩

/-- Claim C7: any pattern tag outside `{gothic, organic, flame, thorns}` makes
the wave value silently fall back to `sin(x·f) + cos(y·f)`. -/
theorem unknown_pattern_fallback (pattern : String)
    (h1 : pattern ≠ "gothic") (h2 : pattern ≠ "organic")
    (h3 : pattern ≠ "flame") (h4 : pattern ≠ "thorns")
    (x y : ℕ) (f : ℝ) :
    waveValue pattern x y f = Real.sin (x * f) + Real.cos (y * f) := by
  unfold waveValue
  rw [if_neg h1, if_neg h2, if_neg h3, if_neg h4]

/-- Witness for C7 with the unknown tag `"spiral"`. -/
theorem unknown_pattern_fallback_witness :
    ("spiral" ≠ "gothic" ∧ "spiral" ≠ "organic" ∧ "spiral" ≠ "flame" ∧
      "spiral" ≠ "thorns") ∧
    waveValue "spiral" 2 3 1 =
      Real.sin ((2 : ℕ) * (1 : ℝ)) + Real.cos ((3 : ℕ) * (1 : ℝ)) :=
  ⟨⟨by decide, by decide, by decide, by decide⟩,
    unknown_pattern_fallback "spiral" (by decide) (by decide) (by decide)
      (by decide) 2 3 1⟩

/-- Claim C8: for valid inputs the output buffer has exactly the input's
dimensions and every in-range cell is initialized — explicitly a copy of the
source pixel or transparent black. -/
theorem dimension_preservation (src : ℕ → ℕ → Pixel) {w h : ℕ}
    (intensity f : ℝ) (pattern : String) (_hw : 0 < w) (_hh : 0 < h)
    (_hi : 1 ≤ intensity) (_hf : 0 < f) :
    (createRippleEffect src w h intensity f pattern).width = w ∧
    (createRippleEffect src w h intensity f pattern).height = h ∧
    ∀ x y : ℕ, x < w → y < h →
      ((createRippleEffect src w h intensity f pattern).data x y = src x y ∨
        (createRippleEffect src w h intensity f pattern).data x y =
          clearedPixel) := by
  refine ⟨rfl, rfl, fun x y hx hy => ?_⟩
  by_cases hs : shouldInclude w h intensity f pattern x y
  · exact Or.inl (data_eq_of_include src intensity f pattern hx hy hs)
  · exact Or.inr (data_eq_of_not_include src intensity f pattern hx hy hs)

/-- Witness for C8 on a 2×3 image with `intensity = 1`, `frequency = 1`. -/
theorem dimension_preservation_witness :
    0 < 2 ∧ 0 < 3 ∧ ((1 : ℝ) ≤ 1) ∧ ((0 : ℝ) < 1) ∧
    ((createRippleEffect srcSample 2 3 1 1 "gothic").width = 2 ∧
    (createRippleEffect srcSample 2 3 1 1 "gothic").height = 3 ∧
    ∀ x y : ℕ, x < 2 → y < 3 →
      ((createRippleEffect srcSample 2 3 1 1 "gothic").data x y =
          srcSample x y ∨
        (createRippleEffect srcSample 2 3 1 1 "gothic").data x y =
          clearedPixel)) :=
  ⟨by decide, by decide, by norm_num, by norm_num,
    dimension_preservation srcSample 1 1 "gothic" (by decide) (by decide)
      (by norm_num) (by norm_num)⟩

/-- Claim C9: the keep/discard decision never reads pixel content — for any
two sources under the same dimensions and parameters, every coordinate is
either copied in both runs or left transparent black in both runs. -/
theorem decision_content_independent (src1 src2 : ℕ → ℕ → Pixel) (w h : ℕ)
    (intensity f : ℝ) (pattern : String) (x y : ℕ) :
    ((createRippleEffect src1 w h intensity f pattern).data x y = src1 x y ∧
      (createRippleEffect src2 w h intensity f pattern).data x y =
        src2 x y) ∨
    ((createRippleEffect src1 w h intensity f pattern).data x y =
        clearedPixel ∧
      (createRippleEffect src2 w h intensity f pattern).data x y =
        clearedPixel) := by
  by_cases hr : x < w ∧ y < h
  · by_cases hs : shouldInclude w h intensity f pattern x y
    · exact Or.inl
        ⟨data_eq_of_include src1 intensity f pattern hr.1 hr.2 hs,
          data_eq_of_include src2 intensity f pattern hr.1 hr.2 hs⟩
    · exact Or.inr
        ⟨data_eq_of_not_include src1 intensity f pattern hr.1 hr.2 hs,
          data_eq_of_not_include src2 intensity f pattern hr.1 hr.2 hs⟩
  · exact Or.inr
      ⟨data_eq_of_out src1 w h intensity f pattern hr,
        data_eq_of_out src2 w h intensity f pattern hr⟩

/-- Counterexample to claim C6 as stated: called with `frequency = 0` — which
per the claim must be rejected as `InvalidParameters` before any processing —
`createRippleEffect` runs to completion and returns an output buffer; it even
copies source pixel `(1, 1)` verbatim (here `intensity = 1`, pattern
`gothic`), so processing demonstrably occurred and no error was reported. -/
theorem freq_zero_produces_output :
    (createRippleEffect srcSample 4 4 1 0 "gothic").width = 4 ∧
    (createRippleEffect srcSample 4 4 1 0 "gothic").data 1 1 =
      srcSample 1 1 := by
  have hmin : minDistFromEdge 1 1 4 4 = 1 := by decide
  have hs : shouldInclude 4 4 1 0 "gothic" 1 1 := by
    intro hzone
    unfold cutoffThreshold rippleOffset
    rw [hmin]
    push_cast
    intro hc
    nlinarith [hc]
  exact ⟨rfl,
    data_eq_of_include srcSample 1 0 "gothic" (by decide) (by decide) hs⟩

/-- Amended claim C6: the filter body performs no parameter validation — with
positive dimensions, `frequency = 0` (or negative), `intensity < 1` and
unrecognized pattern tags are all accepted without error, and a fully
initialized buffer of the requested dimensions is returned (unknown tags
silently use the fallback wave). The only synchronous error is the canvas
API's `IndexSizeError` for a zero dimension, thrown by
`getImageData` / `createImageData` before any processing — there is no
`InvalidParameters` rejection and `frequency = 0` in particular is not
rejected. -/
theorem no_parameter_validation (src : ℕ → ℕ → Pixel) (w h : ℕ)
    (intensity f : ℝ) (pattern : String) :
    ((w = 0 ∨ h = 0) →
      rippleEffectChecked src w h intensity f pattern =
        Except.error CanvasError.indexSizeError) ∧
    (0 < w → 0 < h →
      rippleEffectChecked src w h intensity f pattern =
        Except.ok (createRippleEffect src w h intensity f pattern) ∧
      (createRippleEffect src w h intensity f pattern).width = w ∧
      (createRippleEffect src w h intensity f pattern).height = h ∧
      ∀ x y : ℕ,
        (createRippleEffect src w h intensity f pattern).data x y = src x y ∨
        (createRippleEffect src w h intensity f pattern).data x y =
          clearedPixel) := by
  constructor
  · intro hz
    unfold rippleEffectChecked
    rw [if_pos hz]
  · intro hw hh
    refine ⟨?_, rfl, rfl, fun x y => ?_⟩
    · unfold rippleEffectChecked
      rw [if_neg (by omega)]
    · by_cases hr : x < w ∧ y < h
      · by_cases hs : shouldInclude w h intensity f pattern x y
        · exact Or.inl
            (data_eq_of_include src intensity f pattern hr.1 hr.2 hs)
        · exact Or.inr
            (data_eq_of_not_include src intensity f pattern hr.1 hr.2 hs)
      · exact Or.inr (data_eq_of_out src w h intensity f pattern hr)

/-- Witness for the amended C6: with zero width the checked call reports the
canvas error; with positive 2×2 dimensions and the invalid parameters
`intensity = 0`, `frequency = 0` it still returns a buffer. -/
theorem no_parameter_validation_witness :
    ((0 = 0 ∨ 5 = 0) →
      rippleEffectChecked srcSample 0 5 1 1 "gothic" =
        Except.error CanvasError.indexSizeError) ∧
    (rippleEffectChecked srcSample 0 5 1 1 "gothic" =
      Except.error CanvasError.indexSizeError) ∧
    (rippleEffectChecked srcSample 2 2 0 0 "gothic" =
      Except.ok (createRippleEffect srcSample 2 2 0 0 "gothic") ∧
      (createRippleEffect srcSample 2 2 0 0 "gothic").width = 2 ∧
      (createRippleEffect srcSample 2 2 0 0 "gothic").height = 2 ∧
      ∀ x y : ℕ,
        (createRippleEffect srcSample 2 2 0 0 "gothic").data x y =
          srcSample x y ∨
        (createRippleEffect srcSample 2 2 0 0 "gothic").data x y =
          clearedPixel) :=
  ⟨(no_parameter_validation srcSample 0 5 1 1 "gothic").1,
    (no_parameter_validation srcSample 0 5 1 1 "gothic").1 (Or.inl rfl),
    (no_parameter_validation srcSample 2 2 0 0 "gothic").2 (by decide)
      (by decide)⟩
